import Mathlib

/-!
Verification of the dual-pass extraction-and-adjudication pipeline of
`project-backend` (files `processor.py` and `main.py`).

Modelling conventions (shallow embedding):
* JSON payloads are the inductive `Json`; Python floats that occur in the
  code only as data values (temperatures, confidence scores, quantities,
  durations) are modelled as exact rationals `Rat` — the repository code
  performs no floating-point arithmetic on them, it only threads them
  through requests and records.
* The pydantic models of `processor.py` become Lean structures.  The code
  runs pydantic v2 (it calls `model_dump()` and imports `google.genai`,
  both of which require pydantic >= 2); under pydantic v2 a field annotated
  `Optional[T]` with no default is REQUIRED but NULLABLE: the key must be
  present in the payload, its value may be `null`.  `validate` functions
  below implement exactly that semantics (unknown extra keys are ignored,
  as pydantic does by default).  Lax string-to-number coercion is not
  modelled; no property below depends on it.
* The external LLM service (`google.genai`) is an oracle: an environment
  `Env` carries the `GOOGLE_API_KEY` configuration value and a function
  from requests to responses.  A response carries `parsed` (the result of
  the SDK validating the structured response against `SoFSchema`; `none`
  models the `ValidationError` case caught in the source) and `textJson`
  (the raw textual body as JSON, `none` when `json.loads` would fail).
* Effects are logged: each helper returns its result together with the
  list of network events it performed (client construction and
  `generate_content` calls), so "no network call happens" is "the log is
  empty".
* Errors raised by the Python code are the inductive `PyError`:
  `missingCredential` models the `ValueError` raised for a missing
  `GOOGLE_API_KEY`, `jsonDecodeError` models `json.JSONDecodeError` from
  `json.loads` on an unparsable body.
-/

/-- JSON values, as produced by `json.loads` / consumed by `json.dumps`. -/
inductive Json where
  | null : Json
  | bool : Bool → Json
  | num : Rat → Json
  | str : String → Json
  | arr : List Json → Json
  | obj : List (String × Json) → Json
deriving Repr

/-- Key lookup in a JSON object field list (first match wins). -/
def lookupField : List (String × Json) → String → Option Json
  | [], _ => none
  | (k0, v) :: fs, k => if k0 = k then some v else lookupField fs k

/-- `j[k]` for objects; `none` when the key is missing or `j` is no object. -/
def Json.getField : Json → String → Option Json
  | .obj fs, k => lookupField fs k
  | _, _ => none

/-- Python dict item assignment: overwrite an existing key in place,
otherwise append the new key at the end. -/
def setFieldList : List (String × Json) → String → Json → List (String × Json)
  | [], k, v => [(k, v)]
  | (k0, v0) :: fs, k, v =>
      if k0 = k then (k, v) :: fs else (k0, v0) :: setFieldList fs k v

/-- `j[k] = v` on a JSON object (model of `detailed_ai_data[...] = ...` in
`main.py`; only ever applied to objects in the modelled paths). -/
def Json.setField : Json → String → Json → Json
  | .obj fs, k, v => .obj (setFieldList fs k v)
  | j, _, _ => j

mutual
/-- Model of `json.dumps` (up to whitespace, string escaping and the
decimal rendering of numbers, none of which any property depends on). -/
def Json.dumps : Json → String
  | .null => "null"
  | .bool true => "true"
  | .bool false => "false"
  | .num q => toString q
  | .str s => "\x22" ++ s ++ "\x22"
  | .arr xs => "[" ++ Json.dumpsElems xs ++ "]"
  | .obj fs => "\x7b" ++ Json.dumpsFields fs ++ "\x7d"

def Json.dumpsElems : List Json → String
  | [] => ""
  | [x] => Json.dumps x
  | x :: xs => Json.dumps x ++ ", " ++ Json.dumpsElems xs

def Json.dumpsFields : List (String × Json) → String
  | [] => ""
  | [(k, v)] => "\x22" ++ k ++ "\x22: " ++ Json.dumps v
  | (k, v) :: fs => "\x22" ++ k ++ "\x22: " ++ Json.dumps v ++ ", " ++ Json.dumpsFields fs
end

/-! ### The pydantic models of `processor.py` (lines 11-69) -/

/-- `class PartyDetails(BaseModel)` — processor.py lines 11-15. -/
structure PartyDetails where
  shipowner_name : Option String
  charterer_name : Option String
  port_agent_name : Option String
  confidence : Option Rat
deriving Repr, DecidableEq

/-- `class CargoDetails(BaseModel)` — processor.py lines 18-23. -/
structure CargoDetails where
  operation_type : Option String
  cargo_type : Option String
  quantity : Option Rat
  unit : Option String
  confidence : Option Rat
deriving Repr, DecidableEq

/-- `class Signatory(BaseModel)` — processor.py lines 26-30. -/
structure Signatory where
  role : Option String
  name : Option String
  date_signed : Option String
  confidence : Option Rat
deriving Repr, DecidableEq

/-- `class DocumentDetails(BaseModel)` — processor.py lines 33-41. -/
structure DocumentDetails where
  document_source : Option String
  date_of_document : Option String
  port_name : Option String
  vessel_name : Option String
  voyage_number : Option String
  parties : Option PartyDetails
  cargo : Option CargoDetails
  confidence : Option Rat
deriving Repr, DecidableEq

/-- `class Event(BaseModel)` — processor.py lines 44-54. -/
structure Event where
  event_id : Option Int
  event_type : Option String
  start_date : Option String
  start_time : Option String
  end_date : Option String
  end_time : Option String
  duration_hours : Option Rat
  weather_conditions : Option String
  remarks : Option String
  confidence : Option Rat
deriving Repr, DecidableEq

/-- `class LaytimeNotes(BaseModel)` — processor.py lines 57-61. -/
structure LaytimeNotes where
  free_time_periods_identified : Option String
  suspension_periods_identified : Option String
  remarks_on_interruptions_or_delays : Option String
  confidence : Option Rat
deriving Repr, DecidableEq

/-- `class SoFSchema(BaseModel)` — processor.py lines 64-69.
Represents the structured format for a Statement of Facts document. -/
structure SoFSchema where
  document_details : DocumentDetails
  events : List Event
  laytime_notes : LaytimeNotes
  approvals : Option (List Signatory)
deriving Repr, DecidableEq

/-! ### Pydantic v2 validation of JSON payloads against the models.
Each `parse*` helper takes the result of a key lookup: `none` (key
missing) fails — under pydantic v2 an `Optional[T]` field with no default
is required — while a present `null` is accepted for `Optional` fields. -/

/-- Required-but-nullable `Optional[str]` field. -/
def parseOptStr : Option Json → Option (Option String)
  | some .null => some none
  | some (.str s) => some (some s)
  | _ => none

/-- Required-but-nullable `Optional[float]` field. -/
def parseOptRat : Option Json → Option (Option Rat)
  | some .null => some none
  | some (.num q) => some (some q)
  | _ => none

/-- Required-but-nullable `Optional[int]` field (a JSON number with an
integral value). -/
def parseOptInt : Option Json → Option (Option Int)
  | some .null => some none
  | some (.num q) => if q.den = 1 then some (some q.num) else none
  | _ => none

/-- `PartyDetails.model_validate` on a JSON payload. -/
def PartyDetails.validate (j : Json) : Option PartyDetails := do
  let shipowner_name ← parseOptStr (j.getField "shipowner_name")
  let charterer_name ← parseOptStr (j.getField "charterer_name")
  let port_agent_name ← parseOptStr (j.getField "port_agent_name")
  let confidence ← parseOptRat (j.getField "confidence")
  some { shipowner_name, charterer_name, port_agent_name, confidence }

/-- `CargoDetails.model_validate` on a JSON payload. -/
def CargoDetails.validate (j : Json) : Option CargoDetails := do
  let operation_type ← parseOptStr (j.getField "operation_type")
  let cargo_type ← parseOptStr (j.getField "cargo_type")
  let quantity ← parseOptRat (j.getField "quantity")
  let unit ← parseOptStr (j.getField "unit")
  let confidence ← parseOptRat (j.getField "confidence")
  some { operation_type, cargo_type, quantity, unit, confidence }

/-- `Signatory.model_validate` on a JSON payload. -/
def Signatory.validate (j : Json) : Option Signatory := do
  let role ← parseOptStr (j.getField "role")
  let name ← parseOptStr (j.getField "name")
  let date_signed ← parseOptStr (j.getField "date_signed")
  let confidence ← parseOptRat (j.getField "confidence")
  some { role, name, date_signed, confidence }

/-- Required-but-nullable `Optional[PartyDetails]` field. -/
def parseOptParty : Option Json → Option (Option PartyDetails)
  | some .null => some none
  | some j => (PartyDetails.validate j).map some
  | none => none

/-- Required-but-nullable `Optional[CargoDetails]` field. -/
def parseOptCargo : Option Json → Option (Option CargoDetails)
  | some .null => some none
  | some j => (CargoDetails.validate j).map some
  | none => none

/-- `DocumentDetails.model_validate` on a JSON payload. -/
def DocumentDetails.validate (j : Json) : Option DocumentDetails := do
  let document_source ← parseOptStr (j.getField "document_source")
  let date_of_document ← parseOptStr (j.getField "date_of_document")
  let port_name ← parseOptStr (j.getField "port_name")
  let vessel_name ← parseOptStr (j.getField "vessel_name")
  let voyage_number ← parseOptStr (j.getField "voyage_number")
  let parties ← parseOptParty (j.getField "parties")
  let cargo ← parseOptCargo (j.getField "cargo")
  let confidence ← parseOptRat (j.getField "confidence")
  some { document_source, date_of_document, port_name, vessel_name,
         voyage_number, parties, cargo, confidence }

/-- `Event.model_validate` on a JSON payload. -/
def Event.validate (j : Json) : Option Event := do
  let event_id ← parseOptInt (j.getField "event_id")
  let event_type ← parseOptStr (j.getField "event_type")
  let start_date ← parseOptStr (j.getField "start_date")
  let start_time ← parseOptStr (j.getField "start_time")
  let end_date ← parseOptStr (j.getField "end_date")
  let end_time ← parseOptStr (j.getField "end_time")
  let duration_hours ← parseOptRat (j.getField "duration_hours")
  let weather_conditions ← parseOptStr (j.getField "weather_conditions")
  let remarks ← parseOptStr (j.getField "remarks")
  let confidence ← parseOptRat (j.getField "confidence")
  some { event_id, event_type, start_date, start_time, end_date, end_time,
         duration_hours, weather_conditions, remarks, confidence }

/-- `LaytimeNotes.model_validate` on a JSON payload. -/
def LaytimeNotes.validate (j : Json) : Option LaytimeNotes := do
  let free_time_periods_identified ← parseOptStr (j.getField "free_time_periods_identified")
  let suspension_periods_identified ← parseOptStr (j.getField "suspension_periods_identified")
  let remarks_on_interruptions_or_delays ← parseOptStr (j.getField "remarks_on_interruptions_or_delays")
  let confidence ← parseOptRat (j.getField "confidence")
  some { free_time_periods_identified, suspension_periods_identified,
         remarks_on_interruptions_or_delays, confidence }

/-- Elementwise validation of a `List[Event]` field body. -/
def validateEvents : List Json → Option (List Event)
  | [] => some []
  | j :: js => do
      let e ← Event.validate j
      let es ← validateEvents js
      some (e :: es)

/-- Elementwise validation of a `List[Signatory]` body. -/
def validateSignatories : List Json → Option (List Signatory)
  | [] => some []
  | j :: js => do
      let s ← Signatory.validate j
      let ss ← validateSignatories js
      some (s :: ss)

/-- Required (non-nullable) `document_details: DocumentDetails` field. -/
def parseDocumentDetails : Option Json → Option DocumentDetails
  | some j => DocumentDetails.validate j
  | none => none

/-- Required (non-nullable) `events: List[Event]` field. -/
def parseEventsField : Option Json → Option (List Event)
  | some (.arr js) => validateEvents js
  | _ => none

/-- Required (non-nullable) `laytime_notes: LaytimeNotes` field. -/
def parseLaytimeNotes : Option Json → Option LaytimeNotes
  | some j => LaytimeNotes.validate j
  | none => none

/-- Required-but-nullable `approvals: Optional[List[Signatory]]` field. -/
def parseApprovals : Option Json → Option (Option (List Signatory))
  | some .null => some none
  | some (.arr js) => (validateSignatories js).map some
  | _ => none

/-- `SoFSchema.model_validate` on a JSON payload: the ingestion-boundary
validation of the Schema Model. -/
def SoFSchema.validate (j : Json) : Option SoFSchema := do
  let document_details ← parseDocumentDetails (j.getField "document_details")
  let events ← parseEventsField (j.getField "events")
  let laytime_notes ← parseLaytimeNotes (j.getField "laytime_notes")
  let approvals ← parseApprovals (j.getField "approvals")
  some { document_details, events, laytime_notes, approvals }

/-! ### `model_dump()` — serialising a validated model back to JSON. -/

def dumpOptStr : Option String → Json
  | none => .null
  | some s => .str s

def dumpOptRat : Option Rat → Json
  | none => .null
  | some q => .num q

def dumpOptInt : Option Int → Json
  | none => .null
  | some n => .num (n : Rat)

/-- `PartyDetails.model_dump()`. -/
def PartyDetails.model_dump (p : PartyDetails) : Json :=
  .obj [("shipowner_name", dumpOptStr p.shipowner_name),
        ("charterer_name", dumpOptStr p.charterer_name),
        ("port_agent_name", dumpOptStr p.port_agent_name),
        ("confidence", dumpOptRat p.confidence)]

/-- `CargoDetails.model_dump()`. -/
def CargoDetails.model_dump (c : CargoDetails) : Json :=
  .obj [("operation_type", dumpOptStr c.operation_type),
        ("cargo_type", dumpOptStr c.cargo_type),
        ("quantity", dumpOptRat c.quantity),
        ("unit", dumpOptStr c.unit),
        ("confidence", dumpOptRat c.confidence)]

/-- `Signatory.model_dump()`. -/
def Signatory.model_dump (s : Signatory) : Json :=
  .obj [("role", dumpOptStr s.role),
        ("name", dumpOptStr s.name),
        ("date_signed", dumpOptStr s.date_signed),
        ("confidence", dumpOptRat s.confidence)]

def dumpOptParty : Option PartyDetails → Json
  | none => .null
  | some p => p.model_dump

def dumpOptCargo : Option CargoDetails → Json
  | none => .null
  | some c => c.model_dump

/-- `DocumentDetails.model_dump()`. -/
def DocumentDetails.model_dump (d : DocumentDetails) : Json :=
  .obj [("document_source", dumpOptStr d.document_source),
        ("date_of_document", dumpOptStr d.date_of_document),
        ("port_name", dumpOptStr d.port_name),
        ("vessel_name", dumpOptStr d.vessel_name),
        ("voyage_number", dumpOptStr d.voyage_number),
        ("parties", dumpOptParty d.parties),
        ("cargo", dumpOptCargo d.cargo),
        ("confidence", dumpOptRat d.confidence)]

/-- `Event.model_dump()`. -/
def Event.model_dump (e : Event) : Json :=
  .obj [("event_id", dumpOptInt e.event_id),
        ("event_type", dumpOptStr e.event_type),
        ("start_date", dumpOptStr e.start_date),
        ("start_time", dumpOptStr e.start_time),
        ("end_date", dumpOptStr e.end_date),
        ("end_time", dumpOptStr e.end_time),
        ("duration_hours", dumpOptRat e.duration_hours),
        ("weather_conditions", dumpOptStr e.weather_conditions),
        ("remarks", dumpOptStr e.remarks),
        ("confidence", dumpOptRat e.confidence)]

/-- `LaytimeNotes.model_dump()`. -/
def LaytimeNotes.model_dump (l : LaytimeNotes) : Json :=
  .obj [("free_time_periods_identified", dumpOptStr l.free_time_periods_identified),
        ("suspension_periods_identified", dumpOptStr l.suspension_periods_identified),
        ("remarks_on_interruptions_or_delays", dumpOptStr l.remarks_on_interruptions_or_delays),
        ("confidence", dumpOptRat l.confidence)]

def dumpApprovals : Option (List Signatory) → Json
  | none => .null
  | some ss => .arr (ss.map Signatory.model_dump)

/-- `SoFSchema.model_dump()`: what `_run_extraction` / `_refine_extraction`
return on the structured-parse path. -/
def SoFSchema.model_dump (r : SoFSchema) : Json :=
  .obj [("document_details", r.document_details.model_dump),
        ("events", .arr (r.events.map Event.model_dump)),
        ("laytime_notes", r.laytime_notes.model_dump),
        ("approvals", dumpApprovals r.approvals)]

/-! ### Roundtrip: a dumped model validates back to itself. -/

theorem parseOptStr_dump (o : Option String) :
    parseOptStr (some (dumpOptStr o)) = some o := by
  cases o <;> rfl

theorem parseOptRat_dump (o : Option Rat) :
    parseOptRat (some (dumpOptRat o)) = some o := by
  cases o <;> rfl

theorem parseOptInt_dump (o : Option Int) :
    parseOptInt (some (dumpOptInt o)) = some o := by
  cases o with
  | none => rfl
  | some n => simp [parseOptInt, dumpOptInt]

theorem partyValidate_dump (p : PartyDetails) :
    PartyDetails.validate p.model_dump = some p := by
  simp [PartyDetails.validate, PartyDetails.model_dump, Json.getField,
        lookupField, parseOptStr_dump, parseOptRat_dump]

theorem cargoValidate_dump (c : CargoDetails) :
    CargoDetails.validate c.model_dump = some c := by
  simp [CargoDetails.validate, CargoDetails.model_dump, Json.getField,
        lookupField, parseOptStr_dump, parseOptRat_dump]

theorem signatoryValidate_dump (s : Signatory) :
    Signatory.validate s.model_dump = some s := by
  simp [Signatory.validate, Signatory.model_dump, Json.getField,
        lookupField, parseOptStr_dump, parseOptRat_dump]

theorem parseOptParty_dump (o : Option PartyDetails) :
    parseOptParty (some (dumpOptParty o)) = some o := by
  cases o with
  | none => rfl
  | some p =>
      have h : parseOptParty (some (dumpOptParty (some p)))
          = (PartyDetails.validate p.model_dump).map some := rfl
      rw [h, partyValidate_dump]
      rfl

theorem parseOptCargo_dump (o : Option CargoDetails) :
    parseOptCargo (some (dumpOptCargo o)) = some o := by
  cases o with
  | none => rfl
  | some c =>
      have h : parseOptCargo (some (dumpOptCargo (some c)))
          = (CargoDetails.validate c.model_dump).map some := rfl
      rw [h, cargoValidate_dump]
      rfl

theorem documentValidate_dump (d : DocumentDetails) :
    DocumentDetails.validate d.model_dump = some d := by
  simp [DocumentDetails.validate, DocumentDetails.model_dump, Json.getField,
        lookupField, parseOptStr_dump, parseOptRat_dump, parseOptParty_dump,
        parseOptCargo_dump]

theorem eventValidate_dump (e : Event) :
    Event.validate e.model_dump = some e := by
  simp [Event.validate, Event.model_dump, Json.getField, lookupField,
        parseOptStr_dump, parseOptRat_dump, parseOptInt_dump]

theorem laytimeValidate_dump (l : LaytimeNotes) :
    LaytimeNotes.validate l.model_dump = some l := by
  simp [LaytimeNotes.validate, LaytimeNotes.model_dump, Json.getField,
        lookupField, parseOptStr_dump, parseOptRat_dump]

theorem validateEvents_dump (es : List Event) :
    validateEvents (es.map Event.model_dump) = some es := by
  induction es with
  | nil => rfl
  | cons e es ih => simp [validateEvents, eventValidate_dump, ih]

theorem validateSignatories_dump (ss : List Signatory) :
    validateSignatories (ss.map Signatory.model_dump) = some ss := by
  induction ss with
  | nil => rfl
  | cons s ss ih => simp [validateSignatories, signatoryValidate_dump, ih]

theorem parseApprovals_dump (o : Option (List Signatory)) :
    parseApprovals (some (dumpApprovals o)) = some o := by
  cases o with
  | none => rfl
  | some ss => simp [parseApprovals, dumpApprovals, validateSignatories_dump]

/-- A record produced by `model_dump()` validates fully against the Schema
Model, and validation recovers exactly the record. -/
theorem sofValidate_dump (r : SoFSchema) :
    SoFSchema.validate r.model_dump = some r := by
  simp [SoFSchema.validate, SoFSchema.model_dump, Json.getField, lookupField,
        parseDocumentDetails, parseEventsField, parseLaytimeNotes,
        documentValidate_dump, laytimeValidate_dump,
        validateEvents_dump, parseApprovals_dump]

/-! ### The external LLM service boundary and the pipeline. -/

/-- A `generate_content` request, as the code assembles it: model name,
the `contents` string, and the `config` dict (`response_mime_type`,
`response_schema` — recorded as the flag that the schema handed over is
`SoFSchema` — and `temperature`). -/
structure GenRequest where
  model : String
  contents : String
  responseMimeType : String
  responseSchemaIsSoF : Bool
  temperature : Rat
deriving Repr

/-- The service response: `parsed` is the outcome of the SDK validating
the structured response against `SoFSchema` (`none` models the
`ValidationError` that the source catches), `textJson` is `json.loads`
applied to the raw textual body (`none` when the body is unparsable). -/
structure ServiceResponse where
  parsed : Option SoFSchema
  textJson : Option Json

/-- Network-visible events performed by the helpers: constructing a
`genai.Client` with a key, and issuing a `generate_content` call. -/
inductive NetEvent where
  | clientInit : String → NetEvent
  | genCall : GenRequest → NetEvent
deriving Repr

/-- The process environment: the `GOOGLE_API_KEY` configuration value as
`os.getenv` returns it, and the external LLM service as a deterministic
oracle from requests to responses. -/
structure Env where
  google_api_key : Option String
  svc : GenRequest → ServiceResponse

/-- Exceptions the modelled code can raise. -/
inductive PyError where
  | missingCredential : PyError
  | jsonDecodeError : PyError
deriving Repr, DecidableEq

/-- The fixed extraction instruction prompt — processor.py lines 86-102. -/
def extractionPromptText : String :=
"
    You are given a Statement of Facts (SOF) document.
    Extract its details into the provided schema (SoFSchema).

    Guidelines:
     If information is clearly present in the document, do not leave fields blank.

     For every recorded event, ensure both start_time and end_time are populated. If an event represents a single point in time, use that same timestamp for both the start and end.

     If distinct start and end times are given, calculate the duration_hours.

     Include all relevant notes on weather, delays, tug usage, approvals, and laytime.

     Only leave a field as null if the data is truly missing from the document.

     Add a confidence score (from 0.0 to 1.0) for each extracted value.
    "

/-- The request `_run_extraction` issues: contents are
`sof_text + \x22\n\n\x22 + prompt` — processor.py lines 80-84 and 104-108. -/
def extractRequest (sof_text : String) (temperature : Rat) : GenRequest :=
  { model := "gemini-2.5-pro"
    contents := sof_text ++ "\n\n" ++ extractionPromptText
    responseMimeType := "application/json"
    responseSchemaIsSoF := true
    temperature := temperature }

/-- The fixed part of the adjudication prompt, up to the interpolated
document text — processor.py lines 130-152. -/
def refinePromptIntro : String :=
"
**Role & Goal:**
You are an expert data adjudicator specializing in maritime Statement of Facts (SOF) documents. Your task is to act as the final authority, producing a single, definitive, and highly accurate JSON record by critically analyzing the provided information.

**Inputs:**
1.  **The Document Text:** The original, unaltered source of truth.
2.  **Extraction 1:** A first attempt to structure the data.
3.  **Extraction 2:** A second, independent attempt.

**Core Logic & Rules:**
1.  **The Source is Final:** The Document Text is the absolute ground truth. Every field in your final output must be directly verifiable from this text.
2.  **Resolve Conflicts:** When the extractions disagree, you must re-examine the Document Text to determine the correct value. Do not guess or choose randomly.
3.  **Merge for Completeness:** Create the most complete record possible. If one extraction captured a detail (e.g., a remark or event) that the other missed, include it in your final output, but only after confirming it exists in the source text.
4.  **Determine Final Confidence:** Your confidence score for each field should reflect the evidence.
    - If both extractions agree and are confirmed by the text, confidence should be high (e.g., 0.95-1.0).
    - If you resolved a conflict or found a value only one extraction caught, your confidence should be slightly lower but still high if the text is clear (e.g., 0.85-0.9).
    - If the text itself is ambiguous, reflect that in the score (e.g., 0.7-0.8).

**Output Requirements:**
- **Strict Schema:** The output MUST be a single, valid JSON object that strictly follows the SoFSchema.
- **No Fabrication:** Do not invent, hallucinate, or infer data that is not explicitly present in the Document Text. If information is absent, the value MUST be `null`.

Begin your analysis. Compare the two extractions against the source text and generate the final, consolidated JSON object.
"

/-- The adjudication prompt with the document text and both candidate
extractions interpolated — processor.py lines 130-167. -/
def refineContents (sof_text : String) (e1 e2 : Json) : String :=
  refinePromptIntro ++
  "\n--- DOCUMENT TEXT ---\n" ++ sof_text ++
  "\n--- END DOCUMENT ---\n\n--- EXTRACTION 1 (Initial Pass) ---\n" ++
  Json.dumps e1 ++
  "\n--- END EXTRACTION 1 ---\n\n--- EXTRACTION 2 (Second Pass) ---\n" ++
  Json.dumps e2 ++
  "\n--- END EXTRACTION 2 ---\n\n**Final Consolidated JSON:**\n"

/-- The request `_refine_extraction` issues — processor.py lines 124-128
and 169-173. -/
def refineRequest (sof_text : String) (e1 e2 : Json) : GenRequest :=
  { model := "gemini-2.5-pro"
    contents := refineContents sof_text e1 e2
    responseMimeType := "application/json"
    responseSchemaIsSoF := true
    temperature := 0 }

/-- `_run_extraction(sof_text, temperature)` — processor.py lines 73-114.
Run a single extraction with given temperature.  The credential check
(`if not api_key`) treats a missing and an empty `GOOGLE_API_KEY` alike
(Python falsiness) and fires before the client is constructed; on the
structured path the validated record is dumped, on `ValidationError` the
raw body is returned as parsed by `json.loads` with no further schema
validation. -/
def _run_extraction (env : Env) (sof_text : String) (temperature : Rat) :
    Except PyError Json × List NetEvent :=
  match env.google_api_key with
  | none => (.error .missingCredential, [])
  | some api_key =>
    if api_key = "" then (.error .missingCredential, [])
    else
      let req := extractRequest sof_text temperature
      let response := env.svc req
      let log := [NetEvent.clientInit api_key, NetEvent.genCall req]
      match response.parsed with
      | some parsed => (.ok parsed.model_dump, log)
      | none =>
        match response.textJson with
        | some j => (.ok j, log)
        | none => (.error .jsonDecodeError, log)

/-- `_refine_extraction(sof_text, extracted_jsons)` — processor.py lines
117-179.  Merge two extracted JSONs into a final one using the original
text.  (`extracted_jsons[0]` / `[1]` are modelled with `getD`; the
pipeline only ever passes a two-element list.) -/
def _refine_extraction (env : Env) (sof_text : String)
    (extracted_jsons : List Json) : Except PyError Json × List NetEvent :=
  match env.google_api_key with
  | none => (.error .missingCredential, [])
  | some api_key =>
    if api_key = "" then (.error .missingCredential, [])
    else
      let req := refineRequest sof_text (extracted_jsons.getD 0 .null)
                   (extracted_jsons.getD 1 .null)
      let response := env.svc req
      let log := [NetEvent.clientInit api_key, NetEvent.genCall req]
      match response.parsed with
      | some parsed => (.ok parsed.model_dump, log)
      | none =>
        match response.textJson with
        | some j => (.ok j, log)
        | none => (.error .jsonDecodeError, log)

/-- `get_structured_data(sof_text)` — processor.py lines 183-198.  Runs
dual extraction + refinement and returns the final JSON; any exception
from a stage propagates and aborts the remaining stages. -/
def get_structured_data (env : Env) (sof_text : String) :
    Except PyError Json × List NetEvent :=
  match _run_extraction env sof_text 0 with
  | (.error e, l1) => (.error e, l1)
  | (.ok extraction1, l1) =>
    match _run_extraction env sof_text ((3 : Rat) / 10) with
    | (.error e, l2) => (.error e, l1 ++ l2)
    | (.ok extraction2, l2) =>
      match _refine_extraction env sof_text [extraction1, extraction2] with
      | (.error e, l3) => (.error e, l1 ++ l2 ++ l3)
      | (.ok final, l3) => (.ok final, l1 ++ l2 ++ l3)

/-- The per-file body of `process_uploaded_files` — main.py lines 89-112.
The uploaded bytes are saved to a temp path (the Boolean tracks whether
that file exists); the try-body extracts text (supplied here as
`raw_text` by the excluded text-extraction collaborator), runs the
pipeline and merges `fileName` in on success; an exception is re-raised
as an HTTPException; the `finally` block removes the temp file when it
exists, on both exit paths.  Returns the outcome together with whether
the temp file still exists afterwards. -/
def process_one_file (env : Env) (filename raw_text : String) :
    Except PyError Json × Bool :=
  let fileOnDisk := true
  let body : Except PyError Json :=
    match (get_structured_data env raw_text).1 with
    | .ok data => .ok (data.setField "fileName" (.str filename))
    | .error e => .error e
  let fileAfterCleanup := if fileOnDisk then false else fileOnDisk
  (body, fileAfterCleanup)

/-! ### Concrete fixtures for witnesses and counterexamples. -/

/-- A `DocumentDetails` record with every field `null`. -/
def nullDocumentDetailsRec : DocumentDetails :=
  { document_source := none, date_of_document := none, port_name := none,
    vessel_name := none, voyage_number := none, parties := none,
    cargo := none, confidence := none }

/-- A `LaytimeNotes` record with every field `null`. -/
def nullLaytimeRec : LaytimeNotes :=
  { free_time_periods_identified := none,
    suspension_periods_identified := none,
    remarks_on_interruptions_or_delays := none, confidence := none }

/-- A small fully-valid record. -/
def sampleRecord : SoFSchema :=
  { document_details :=
      { nullDocumentDetailsRec with
          port_name := some "Mundra", vessel_name := some "MV Ocean",
          confidence := some ((9 : Rat) / 10) }
    events := []
    laytime_notes := nullLaytimeRec
    approvals := none }

/-- An environment with a configured key whose service always answers
with a structured, schema-validated response. -/
def envOk : Env :=
  { google_api_key := some "test-key"
    svc := fun _ =>
      { parsed := some sampleRecord, textJson := some sampleRecord.model_dump } }

/-- An environment whose service response always fails structured
parsing and whose raw body parses to the empty JSON object `\x7b\x7d` —
which does NOT conform to `SoFSchema`. -/
def envFallback : Env :=
  { google_api_key := some "test-key"
    svc := fun _ => { parsed := none, textJson := some (.obj []) } }

/-- A record whose document-level confidence is 2.0 — outside [0, 1]. -/
def conf2Record : SoFSchema :=
  { document_details := { nullDocumentDetailsRec with confidence := some 2 }
    events := []
    laytime_notes := nullLaytimeRec
    approvals := none }

/-- An environment whose service always returns the out-of-range
confidence record as a structured, schema-validated response. -/
def envConf2 : Env :=
  { google_api_key := some "test-key"
    svc := fun _ => { parsed := some conf2Record, textJson := none } }

/-- An event with `start_time` populated but `end_time` null. -/
def badEvent : Event :=
  { event_id := some 1, event_type := some "Loading", start_date := none,
    start_time := some "08:00", end_date := none, end_time := none,
    duration_hours := none, weather_conditions := none, remarks := none,
    confidence := some ((9 : Rat) / 10) }

/-- A schema-valid record containing `badEvent`. -/
def badEventRecord : SoFSchema :=
  { document_details := nullDocumentDetailsRec
    events := [badEvent]
    laytime_notes := nullLaytimeRec
    approvals := none }

/-- An environment whose service always returns `badEventRecord` as a
structured, schema-validated response. -/
def envBadEvent : Env :=
  { google_api_key := some "test-key"
    svc := fun _ => { parsed := some badEventRecord, textJson := none } }

/-- JSON for `DocumentDetails` with every declared key present, `null`. -/
def nullDocumentDetailsJson : Json :=
  .obj [("document_source", .null), ("date_of_document", .null),
        ("port_name", .null), ("vessel_name", .null),
        ("voyage_number", .null), ("parties", .null), ("cargo", .null),
        ("confidence", .null)]

/-- JSON for `LaytimeNotes` with every declared key present, `null`. -/
def nullLaytimeJson : Json :=
  .obj [("free_time_periods_identified", .null),
        ("suspension_periods_identified", .null),
        ("remarks_on_interruptions_or_delays", .null), ("confidence", .null)]

/-- A top-level payload with all four declared keys present and every
leaf `null` (events empty). -/
def allNullPayload : Json :=
  .obj [("document_details", nullDocumentDetailsJson), ("events", .arr []),
        ("laytime_notes", nullLaytimeJson), ("approvals", .null)]

/-- The record `allNullPayload` validates to. -/
def nullRecord : SoFSchema :=
  { document_details := nullDocumentDetailsRec, events := [],
    laytime_notes := nullLaytimeRec, approvals := none }

/-- A top-level payload carrying the three fields the spec calls
required — but omitting the `approvals` key entirely. -/
def omitApprovalsPayload : Json :=
  .obj [("document_details", nullDocumentDetailsJson), ("events", .arr []),
        ("laytime_notes", nullLaytimeJson)]

/-- A `DocumentDetails` payload omitting the `vessel_name` key (all other
keys present and `null`). -/
def omitVesselDocJson : Json :=
  .obj [("document_source", .null), ("date_of_document", .null),
        ("port_name", .null), ("voyage_number", .null), ("parties", .null),
        ("cargo", .null), ("confidence", .null)]

/-! ### Helper equation lemmas for the pipeline under a valid key. -/

theorem run_extraction_eq_some (env : Env) (t : String) (temp : Rat)
    (k : String) (hkey : env.google_api_key = some k) (hk : k ≠ "") :
    _run_extraction env t temp =
      (match (env.svc (extractRequest t temp)).parsed with
       | some parsed => (.ok parsed.model_dump,
           [NetEvent.clientInit k, NetEvent.genCall (extractRequest t temp)])
       | none =>
         match (env.svc (extractRequest t temp)).textJson with
         | some j => (.ok j,
             [NetEvent.clientInit k, NetEvent.genCall (extractRequest t temp)])
         | none => (.error .jsonDecodeError,
             [NetEvent.clientInit k, NetEvent.genCall (extractRequest t temp)])) := by
  unfold _run_extraction
  simp only [hkey]
  rw [if_neg hk]

theorem refine_extraction_eq_some (env : Env) (t : String) (l : List Json)
    (k : String) (hkey : env.google_api_key = some k) (hk : k ≠ "") :
    _refine_extraction env t l =
      (match (env.svc (refineRequest t (l.getD 0 .null)
          (l.getD 1 .null))).parsed with
       | some parsed => (.ok parsed.model_dump,
           [NetEvent.clientInit k,
            NetEvent.genCall (refineRequest t (l.getD 0 .null)
              (l.getD 1 .null))])
       | none =>
         match (env.svc (refineRequest t (l.getD 0 .null)
             (l.getD 1 .null))).textJson with
         | some j => (.ok j,
             [NetEvent.clientInit k,
              NetEvent.genCall (refineRequest t (l.getD 0 .null)
                (l.getD 1 .null))])
         | none => (.error .jsonDecodeError,
             [NetEvent.clientInit k,
              NetEvent.genCall (refineRequest t (l.getD 0 .null)
                (l.getD 1 .null))])) := by
  unfold _refine_extraction
  simp only [hkey]
  rw [if_neg hk]

/-! ### Claims. -/

/-- Claim C4: with no API credential configured, `_run_extraction` and
`_refine_extraction` each raise the missing-credential error with an
empty network log — no client is constructed and no request is issued —
and the whole pipeline `get_structured_data` aborts immediately with an
empty network log, so the remaining extraction and adjudication calls
are never made. -/
theorem missing_credential_aborts (svc : GenRequest → ServiceResponse)
    (t : String) (temp : Rat) (l : List Json) :
    _run_extraction ⟨none, svc⟩ t temp = (.error .missingCredential, [])
    ∧ _refine_extraction ⟨none, svc⟩ t l = (.error .missingCredential, [])
    ∧ get_structured_data ⟨none, svc⟩ t = (.error .missingCredential, []) :=
  ⟨rfl, rfl, rfl⟩

/-- Claim C10: an empty-string `GOOGLE_API_KEY` is treated exactly like
an absent one (`if not api_key` under Python falsiness): both helpers and
the whole pipeline raise the missing-credential error with an empty
network log, before constructing a client or issuing any request. -/
theorem empty_credential_treated_as_missing
    (svc : GenRequest → ServiceResponse) (t : String) (temp : Rat)
    (l : List Json) :
    _run_extraction ⟨some "", svc⟩ t temp = (.error .missingCredential, [])
    ∧ _refine_extraction ⟨some "", svc⟩ t l = (.error .missingCredential, [])
    ∧ get_structured_data ⟨some "", svc⟩ t = (.error .missingCredential, []) :=
  ⟨rfl, rfl, rfl⟩

/-- Claim C9: the per-file handling of the calling layer deletes the
temporarily saved input file on every exit path: after `process_one_file`
the temp file is gone whatever the pipeline did, and in particular it is
also gone on a concrete failing path (missing credential → error). -/
theorem temp_file_deleted_on_every_exit (env : Env) (fn t : String) :
    (process_one_file env fn t).2 = false
    ∧ process_one_file ⟨none, env.svc⟩ fn t
        = (.error .missingCredential, false) :=
  ⟨rfl, rfl⟩

/-- Claim C3: `get_structured_data` runs extraction at temperature 0.0,
then extraction at temperature 0.3, then hands the document text and the
two candidates (in order) to `_refine_extraction`, whose outcome it
returns unmodified with the three stages' network events in sequence; the
`fileName` document identifier is merged in only by the calling layer
(`process_one_file`), not by the core. -/
theorem pipeline_sequence_and_unmodified_result (env : Env) (t : String)
    (a b : Json) (la lb : List NetEvent)
    (h1 : _run_extraction env t 0 = (.ok a, la))
    (h2 : _run_extraction env t ((3 : Rat) / 10) = (.ok b, lb)) :
    get_structured_data env t
      = ((_refine_extraction env t [a, b]).1,
         la ++ lb ++ (_refine_extraction env t [a, b]).2)
    ∧ (∀ fn final l, get_structured_data env t = (.ok final, l) →
        process_one_file env fn t
          = (.ok (final.setField "fileName" (.str fn)), false)) := by
  constructor
  · unfold get_structured_data
    rw [h1, h2]
    rcases hr : _refine_extraction env t [a, b] with ⟨res, l3⟩
    cases res <;> simp [hr]
  · intro fn final l hget
    unfold process_one_file
    rw [hget]
    rfl

/-- Witness for C3 at a concrete environment. -/
theorem pipeline_sequence_witness :
    get_structured_data envOk "doc"
      = ((_refine_extraction envOk "doc"
            [SoFSchema.model_dump sampleRecord,
             SoFSchema.model_dump sampleRecord]).1,
         [NetEvent.clientInit "test-key",
          NetEvent.genCall (extractRequest "doc" 0)]
         ++ [NetEvent.clientInit "test-key",
             NetEvent.genCall (extractRequest "doc" ((3 : Rat) / 10))]
         ++ (_refine_extraction envOk "doc"
              [SoFSchema.model_dump sampleRecord,
               SoFSchema.model_dump sampleRecord]).2) :=
  (pipeline_sequence_and_unmodified_result envOk "doc"
    (SoFSchema.model_dump sampleRecord) (SoFSchema.model_dump sampleRecord)
    _ _ rfl rfl).1

/-- Claim C5: under a configured key, the Adjudicator issues exactly one
LLM call — its network log is one client construction plus one
`generate_content` call — at temperature 0.0, with `SoFSchema` required
as the response shape, and its request contents embed the original
document text followed by candidate a under the Extraction 1 heading and
candidate b under the Extraction 2 heading. -/
theorem adjudicator_single_call (env : Env) (t : String) (a b : Json)
    (k : String) (hkey : env.google_api_key = some k) (hk : k ≠ "") :
    (∃ res, _refine_extraction env t [a, b]
        = (res, [NetEvent.clientInit k,
                 NetEvent.genCall (refineRequest t a b)]))
    ∧ (refineRequest t a b).temperature = 0
    ∧ (refineRequest t a b).responseSchemaIsSoF = true
    ∧ (refineRequest t a b).model = "gemini-2.5-pro"
    ∧ ∃ p s, (refineRequest t a b).contents
        = p ++ t
          ++ "\n--- END DOCUMENT ---\n\n--- EXTRACTION 1 (Initial Pass) ---\n"
          ++ Json.dumps a
          ++ "\n--- END EXTRACTION 1 ---\n\n--- EXTRACTION 2 (Second Pass) ---\n"
          ++ Json.dumps b ++ s := by
  refine ⟨?_, rfl, rfl, rfl, ?_⟩
  · rw [refine_extraction_eq_some env t [a, b] k hkey hk]
    simp only [List.getD_cons_zero, List.getD_cons_succ]
    cases hp : (env.svc (refineRequest t a b)).parsed with
    | some r => exact ⟨.ok r.model_dump, rfl⟩
    | none =>
      cases hj : (env.svc (refineRequest t a b)).textJson with
      | some j => exact ⟨.ok j, rfl⟩
      | none => exact ⟨.error .jsonDecodeError, rfl⟩
  · refine ⟨refinePromptIntro ++ "\n--- DOCUMENT TEXT ---\n",
      "\n--- END EXTRACTION 2 ---\n\n**Final Consolidated JSON:**\n", ?_⟩
    simp only [refineRequest, refineContents, String.append_assoc]

/-- Witness for C5 at a concrete environment and candidates. -/
theorem adjudicator_single_call_witness :
    ∃ res, _refine_extraction envOk "doc" [Json.null, Json.null]
      = (res, [NetEvent.clientInit "test-key",
               NetEvent.genCall (refineRequest "doc" .null .null)]) :=
  (adjudicator_single_call envOk "doc" .null .null "test-key" rfl
    (by decide)).1

/-- Counterexample to C2 as stated: in both `_run_extraction` (extract)
and `_refine_extraction` (adjudicate) the structured parse fails, the
raw body is the empty JSON object, and both helpers return it as-is even
though it does NOT conform to `SoFSchema` — no `SchemaValidationError`
is raised for the non-conforming fallback in either helper. -/
theorem fallback_returns_nonconforming_counterexample :
    _run_extraction envFallback "doc" 0
      = (.ok (.obj []),
         [NetEvent.clientInit "test-key",
          NetEvent.genCall (extractRequest "doc" 0)])
    ∧ _refine_extraction envFallback "doc" [Json.null, Json.null]
      = (.ok (.obj []),
         [NetEvent.clientInit "test-key",
          NetEvent.genCall (refineRequest "doc" .null .null)])
    ∧ SoFSchema.validate (.obj []) = none :=
  ⟨rfl, rfl, rfl⟩

/-- Claim C2 (amended): in `extract` and likewise in `adjudicate`, when
the structured response fails Schema Model validation, the raw textual
response is parsed as JSON and returned WITHOUT being validated against
the Schema Model — whatever JSON the body parses to is returned as-is —
and the fallback path of either helper only fails (with a JSON decode
error, not a schema error) when the body is unparsable as JSON. -/
theorem fallback_returned_unvalidated (env : Env) (t : String)
    (temp : Rat) (a b : Json) (k : String)
    (hkey : env.google_api_key = some k) (hk : k ≠ "")
    (hparseE : (env.svc (extractRequest t temp)).parsed = none)
    (hparseR : (env.svc (refineRequest t a b)).parsed = none) :
    (∀ j, (env.svc (extractRequest t temp)).textJson = some j →
        _run_extraction env t temp
          = (.ok j, [NetEvent.clientInit k,
                     NetEvent.genCall (extractRequest t temp)]))
    ∧ ((env.svc (extractRequest t temp)).textJson = none →
        _run_extraction env t temp
          = (.error .jsonDecodeError,
             [NetEvent.clientInit k,
              NetEvent.genCall (extractRequest t temp)]))
    ∧ (∀ j, (env.svc (refineRequest t a b)).textJson = some j →
        _refine_extraction env t [a, b]
          = (.ok j, [NetEvent.clientInit k,
                     NetEvent.genCall (refineRequest t a b)]))
    ∧ ((env.svc (refineRequest t a b)).textJson = none →
        _refine_extraction env t [a, b]
          = (.error .jsonDecodeError,
             [NetEvent.clientInit k,
              NetEvent.genCall (refineRequest t a b)])) := by
  rw [run_extraction_eq_some env t temp k hkey hk,
      refine_extraction_eq_some env t [a, b] k hkey hk]
  simp only [List.getD_cons_zero, List.getD_cons_succ]
  refine ⟨?_, ?_, ?_, ?_⟩
  · intro j hj
    simp only [hparseE, hj]
  · intro hj
    simp only [hparseE, hj]
  · intro j hj
    simp only [hparseR, hj]
  · intro hj
    simp only [hparseR, hj]

/-- Witness for C2 (amended) at a concrete environment, exercising the
fallback of both helpers. -/
theorem fallback_unvalidated_witness :
    _run_extraction envFallback "ship docs" 0
      = (.ok (.obj []),
         [NetEvent.clientInit "test-key",
          NetEvent.genCall (extractRequest "ship docs" 0)])
    ∧ _refine_extraction envFallback "ship docs" [Json.null, Json.null]
      = (.ok (.obj []),
         [NetEvent.clientInit "test-key",
          NetEvent.genCall (refineRequest "ship docs" .null .null)]) :=
  have h := fallback_returned_unvalidated envFallback "ship docs" 0
    .null .null "test-key" rfl (by decide) rfl rfl
  ⟨h.1 (.obj []) rfl, h.2.2.1 (.obj []) rfl⟩

/-! Helper lemmas for the result taxonomy of the pipeline (C1). -/

theorem run_extraction_result (env : Env) (t : String) (temp : Rat) :
    (∃ e, (_run_extraction env t temp).1 = .error e)
    ∨ (∃ r, (_run_extraction env t temp).1 = .ok (SoFSchema.model_dump r))
    ∨ (∃ j, (_run_extraction env t temp).1 = .ok j
        ∧ (env.svc (extractRequest t temp)).parsed = none
        ∧ (env.svc (extractRequest t temp)).textJson = some j) := by
  cases hkey : env.google_api_key with
  | none =>
      refine .inl ⟨.missingCredential, ?_⟩
      unfold _run_extraction
      rw [hkey]
  | some k =>
      by_cases hk : k = ""
      · subst hk
        refine .inl ⟨.missingCredential, ?_⟩
        unfold _run_extraction
        rw [hkey]
        rfl
      · rw [run_extraction_eq_some env t temp k hkey hk]
        cases hp : (env.svc (extractRequest t temp)).parsed with
        | some r => exact .inr (.inl ⟨r, rfl⟩)
        | none =>
          cases hj : (env.svc (extractRequest t temp)).textJson with
          | some j => exact .inr (.inr ⟨j, rfl, rfl, rfl⟩)
          | none => exact .inl ⟨.jsonDecodeError, rfl⟩

theorem refine_extraction_result (env : Env) (t : String) (l : List Json) :
    (∃ e, (_refine_extraction env t l).1 = .error e)
    ∨ (∃ r, (_refine_extraction env t l).1 = .ok (SoFSchema.model_dump r))
    ∨ (∃ j, (_refine_extraction env t l).1 = .ok j
        ∧ (env.svc (refineRequest t (l.getD 0 .null) (l.getD 1 .null))).parsed
            = none
        ∧ (env.svc (refineRequest t (l.getD 0 .null) (l.getD 1 .null))).textJson
            = some j) := by
  cases hkey : env.google_api_key with
  | none =>
      refine .inl ⟨.missingCredential, ?_⟩
      unfold _refine_extraction
      rw [hkey]
  | some k =>
      by_cases hk : k = ""
      · subst hk
        refine .inl ⟨.missingCredential, ?_⟩
        unfold _refine_extraction
        rw [hkey]
        rfl
      · rw [refine_extraction_eq_some env t l k hkey hk]
        cases hp : (env.svc (refineRequest t (l.getD 0 .null)
            (l.getD 1 .null))).parsed with
        | some r => exact .inr (.inl ⟨r, rfl⟩)
        | none =>
          cases hj : (env.svc (refineRequest t (l.getD 0 .null)
              (l.getD 1 .null))).textJson with
          | some j => exact .inr (.inr ⟨j, rfl, rfl, rfl⟩)
          | none => exact .inl ⟨.jsonDecodeError, rfl⟩

theorem get_structured_data_ok (env : Env) (t : String) (j : Json)
    (h : (get_structured_data env t).1 = .ok j) :
    ∃ l, (_refine_extraction env t l).1 = .ok j := by
  unfold get_structured_data at h
  split at h
  · simp at h
  · rename_i extraction1 l1 heq1
    split at h
    · simp at h
    · rename_i extraction2 l2 heq2
      split at h
      · simp at h
      · rename_i final l3 heq3
        simp only [Except.ok.injEq] at h
        exact ⟨[extraction1, extraction2], by rw [heq3, h]⟩

/-- Counterexample to C1 as stated: in an environment where every
structured parse fails and every raw body is the empty JSON object, the
pipeline RETURNS that object — a record violating the schema — instead
of raising one of the defined error kinds. -/
theorem process_returns_schema_violating_counterexample :
    (get_structured_data envFallback "doc").1 = .ok (.obj [])
    ∧ SoFSchema.validate (.obj []) = none :=
  ⟨rfl, rfl⟩

/-- Claim C1 (amended): for every document text, the pipeline either
raises an error, or returns the `model_dump` of a record that validates
fully against `SoFSchema`, or — when the structured parse of a service
response failed — returns that response's raw fallback JSON as-is, which
may violate the schema. -/
theorem process_result_taxonomy (env : Env) (t : String) :
    (∃ e, (get_structured_data env t).1 = .error e)
    ∨ (∃ r, (get_structured_data env t).1 = .ok (SoFSchema.model_dump r)
        ∧ SoFSchema.validate (SoFSchema.model_dump r) = some r)
    ∨ (∃ req j, (get_structured_data env t).1 = .ok j
        ∧ (env.svc req).parsed = none ∧ (env.svc req).textJson = some j) := by
  cases hres : (get_structured_data env t).1 with
  | error e => exact .inl ⟨e, rfl⟩
  | ok j =>
    obtain ⟨l, hl⟩ := get_structured_data_ok env t j hres
    rcases refine_extraction_result env t l with ⟨e, he⟩ | ⟨r, hr⟩ |
        ⟨j2, hj2, hp, ht⟩
    · rw [hl] at he
      simp at he
    · rw [hl] at hr
      simp only [Except.ok.injEq] at hr
      subst hr
      exact .inr (.inl ⟨r, rfl, sofValidate_dump r⟩)
    · rw [hl] at hj2
      simp only [Except.ok.injEq] at hj2
      subst hj2
      exact .inr (.inr ⟨refineRequest t (l.getD 0 .null) (l.getD 1 .null),
        j, rfl, hp, ht⟩)

/-- Counterexample to C6 as stated: a top-level payload carrying exactly
`document_details`, `events` and `laytime_notes` but omitting the
`approvals` key fails validation (so `approvals` is a required key), and
a `DocumentDetails` payload omitting the `vessel_name` key fails
validation (so omitting a nullable leaf field does not validate). -/
theorem omitted_key_fails_validation_counterexample :
    SoFSchema.validate omitApprovalsPayload = none
    ∧ DocumentDetails.validate omitVesselDocJson = none :=
  ⟨rfl, rfl⟩

/-- Claim C6 (amended): every leaf field is nullable — a payload with all
declared keys present and every leaf `null` validates — but under
pydantic v2 an `Optional` field with no default is required, so every
declared key, including the top-level `approvals`, must be PRESENT in
any payload that validates (its value may be `null`). -/
theorem nullable_fields_required_present :
    SoFSchema.validate allNullPayload = some nullRecord
    ∧ (∀ j r, SoFSchema.validate j = some r →
        (j.getField "approvals").isSome = true) := by
  refine ⟨rfl, ?_⟩
  intro j r h
  cases hg : j.getField "approvals" with
  | some v => rfl
  | none =>
    exfalso
    unfold SoFSchema.validate at h
    rw [hg] at h
    simp only [Option.bind_eq_bind, Option.bind_eq_some] at h
    obtain ⟨dd, _, ev, _, ln, _, ap, hap, _⟩ := h
    rw [show parseApprovals none = none from rfl] at hap
    exact Option.noConfusion hap

/-- Witness for C6 (amended) at a concrete payload. -/
theorem nullable_fields_required_present_witness :
    (allNullPayload.getField "approvals").isSome = true :=
  nullable_fields_required_present.2 allNullPayload nullRecord rfl

/-- Counterexample to C7 as stated: the pipeline returns a record whose
document-level confidence is 2.0 — outside [0, 1] — and that record
passes schema validation; nothing rejects it. -/
theorem confidence_out_of_bounds_counterexample :
    (get_structured_data envConf2 "doc").1
      = .ok (SoFSchema.model_dump conf2Record)
    ∧ SoFSchema.validate (SoFSchema.model_dump conf2Record) = some conf2Record
    ∧ conf2Record.document_details.confidence = some 2
    ∧ ¬((2 : Rat) ≤ 1) :=
  ⟨rfl, sofValidate_dump conf2Record, rfl, by norm_num⟩

set_option maxRecDepth 8192 in
/-- Claim C7 (amended): the Schema Model places no bound on confidence
fields — a record with confidence 2.0 validates and can be returned —
and the 0.0-to-1.0 range exists only as guidance inside the extraction
prompt text. -/
theorem confidence_bounds_prompt_only :
    SoFSchema.validate (SoFSchema.model_dump conf2Record) = some conf2Record
    ∧ conf2Record.document_details.confidence = some 2
    ∧ ∃ p q, extractionPromptText
        = p ++ "Add a confidence score (from 0.0 to 1.0) for each extracted value."
          ++ q := by
  refine ⟨sofValidate_dump conf2Record, rfl,
    "
    You are given a Statement of Facts (SOF) document.
    Extract its details into the provided schema (SoFSchema).

    Guidelines:
     If information is clearly present in the document, do not leave fields blank.

     For every recorded event, ensure both start_time and end_time are populated. If an event represents a single point in time, use that same timestamp for both the start and end.

     If distinct start and end times are given, calculate the duration_hours.

     Include all relevant notes on weather, delays, tug usage, approvals, and laytime.

     Only leave a field as null if the data is truly missing from the document.

     ", "\n    ", ?_⟩
  rfl

/-- Counterexample to C8 as stated: the pipeline returns a schema-valid
record containing an event with `start_time` populated and `end_time`
null — the both-or-neither property does not hold for returned records. -/
theorem event_missing_end_time_counterexample :
    (get_structured_data envBadEvent "doc").1
      = .ok (SoFSchema.model_dump badEventRecord)
    ∧ SoFSchema.validate (SoFSchema.model_dump badEventRecord)
        = some badEventRecord
    ∧ badEventRecord.events = [badEvent]
    ∧ badEvent.start_time = some "08:00"
    ∧ badEvent.end_time = none :=
  ⟨rfl, sofValidate_dump badEventRecord, rfl, rfl, rfl⟩

set_option maxRecDepth 8192 in
/-- Claim C8 (amended): the both-or-neither start/end rule and the
duration computation are requested of the LLM as guidelines inside the
extraction prompt text, but are not checked or enforced on records the
pipeline returns. -/
theorem event_time_rules_prompt_only :
    (∃ p q, extractionPromptText
        = p ++ "For every recorded event, ensure both start_time and end_time are populated. If an event represents a single point in time, use that same timestamp for both the start and end."
          ++ q)
    ∧ (∃ p q, extractionPromptText
        = p ++ "If distinct start and end times are given, calculate the duration_hours."
          ++ q) := by
  constructor
  · refine ⟨"
    You are given a Statement of Facts (SOF) document.
    Extract its details into the provided schema (SoFSchema).

    Guidelines:
     If information is clearly present in the document, do not leave fields blank.

     ", "

     If distinct start and end times are given, calculate the duration_hours.

     Include all relevant notes on weather, delays, tug usage, approvals, and laytime.

     Only leave a field as null if the data is truly missing from the document.

     Add a confidence score (from 0.0 to 1.0) for each extracted value.
    ", ?_⟩
    rfl
  · refine ⟨"
    You are given a Statement of Facts (SOF) document.
    Extract its details into the provided schema (SoFSchema).

    Guidelines:
     If information is clearly present in the document, do not leave fields blank.

     For every recorded event, ensure both start_time and end_time are populated. If an event represents a single point in time, use that same timestamp for both the start and end.

     ", "

     Include all relevant notes on weather, delays, tug usage, approvals, and laytime.

     Only leave a field as null if the data is truly missing from the document.

     Add a confidence score (from 0.0 to 1.0) for each extracted value.
    ", ?_⟩
    rfl
